import Mathlib

/-
  Verification development for the OZON review bot (src/bot.py).

  The Python source is shallowly embedded: strings are Lean `String`s
  manipulated through character lists, SQLite tables are Lean lists,
  network responses and the pymorphy2 morphology library are oracle
  parameters, `random.choice` is an index parameter, and a Python
  exception escaping a function is `Except.error ()`.
-/

namespace OzonBot

/-- Python `str.lower`: lowercase every character.  `Char.toLower` lowers the
ASCII range, which covers the Latin brand alphabet this program matches on. -/
def pyLower (s : String) : String := ⟨s.data.map Char.toLower⟩

/-- Python `str.strip`: drop whitespace from both ends. -/
def pyStrip (s : String) : String :=
  ⟨((s.data.dropWhile Char.isWhitespace).reverse.dropWhile Char.isWhitespace).reverse⟩

/-- Python `s.split(sep)[0]`: everything before the first occurrence of `sep`
(the whole string when `sep` does not occur). -/
def pySplitHead (s : String) (sep : Char) : String :=
  ⟨s.data.takeWhile (fun c => c != sep)⟩

/-- Python `sep in s` for a single-character needle. -/
def containsChar (s : String) (c : Char) : Bool := s.data.any (fun d => d == c)

/-- Python `str.startswith`. -/
def pyStartsWith (s pre : String) : Bool := pre.data.isPrefixOf s.data

/-- Helper for Python `str.split()` (no separator): accumulate the current
word (reversed in `cur`) while scanning the character list. -/
def wordsAux (cur : List Char) : List Char → List (List Char)
  | [] => if cur.isEmpty then [] else [cur.reverse]
  | c :: cs =>
    if c.isWhitespace then
      if cur.isEmpty then wordsAux [] cs else cur.reverse :: wordsAux [] cs
    else wordsAux (c :: cur) cs

/-- Python `str.split()` with no argument: split on whitespace runs, never
producing empty parts (so `" ".split() == []`). -/
def pySplitWs (s : String) : List String :=
  (wordsAux [] s.data).map (fun l => (⟨l⟩ : String))

/-- Bool-valued substring test: `infixAux needle hay` scans `hay` from every
suffix, used for Python `needle in hay`. -/
def infixAux (n : List Char) : List Char → Bool
  | [] => n.isEmpty
  | h :: t => n.isPrefixOf (h :: t) || infixAux n t

/-- Python `needle in hay` for strings. -/
def containsSub (hay needle : String) : Bool := infixAux needle.data hay.data

/-- Python `str(n)` repetition `s * n`: empty for a non-positive count. -/
def pyStrMul (s : String) (n : Int) : String := String.join (List.replicate n.toNat s)

/-- Python `str(x)` on an optional integer: `None` prints as "None". -/
def pyStrOptInt : Option Int → String
  | none => "None"
  | some n => toString n

/-- Python truthiness of an optional string (absent key or empty string is falsy). -/
def truthyS : Option String → Bool
  | none => false
  | some s => s != ""

/-- Python truthiness of an optional integer (absent key or zero is falsy). -/
def truthyI : Option Int → Bool
  | none => false
  | some n => n != 0

/-! ### BrandResolver: `get_brand_name` (src/bot.py lines 208-230) -/

/-- The fixed storefront mapping, in the source's dict insertion order. -/
def brand_mapping : List (String × String) :=
  [("diana store", "Diana Store"),
   ("guten morgen", "Guten Morgen"),
   ("ooo guten morgen", "Guten Morgen"),
   ("dianastore", "Diana Store")]

/-- The `for key in brand_mapping: if brand_name.startswith(key): return ...`
loop followed by the default return. -/
def lookup_by_prefix : List (String × String) → String → String
  | [], _ => "Guten Morgen"
  | (k, v) :: rest, b => if pyStartsWith b k then v else lookup_by_prefix rest b

/-- Embeds `get_brand_name`: strip+lower, cut at the first `|` (else the first
`/`), strip again, then prefix-match against `brand_mapping`. -/
def get_brand_name (brand : String) : String :=
  let brand := pyLower (pyStrip brand)
  let brand_name :=
    if containsChar brand '|' then pyStrip (pySplitHead brand '|')
    else if containsChar brand '/' then pyStrip (pySplitHead brand '/')
    else brand
  lookup_by_prefix brand_mapping brand_name

/-! ### ResponseTemplateEngine: `generate_response` (src/bot.py lines 328-390)

pymorphy2 is an external library; it is embedded as an oracle.  A field
returning `none` covers both a `None` result and an exception caught by the
source's bare `except:` clauses. -/

structure MorphOracle where
  inflectGent : String → Option String
  gender : String → Option String
  number : String → Option String

/-- A concrete do-nothing morphology oracle (every analysis fails, so every
source-level fallback fires). -/
def trivMorph : MorphOracle :=
  { inflectGent := fun _ => none, gender := fun _ => none, number := fun _ => none }

/-- `product_name.split()[0].lower() if product_name else "продукт"`.
Indexing `[0]` into the empty word list raises `IndexError`, which the source
does not catch: that is `Except.error ()`. -/
def first_word_of (product_name : String) : Except Unit String :=
  if product_name != "" then
    match pySplitWs product_name with
    | [] => .error ()
    | w :: _ => .ok (pyLower w)
  else .ok ("продукт")

/-- The `if number == 'plur' ... else "нашей"` cascade; oracle failure (`none`)
lands in the source's default branches. -/
def our_word_of (morph : MorphOracle) (w : String) : String :=
  if morph.number w = some ("plur") then "наших"
  else if morph.gender w = some ("masc") then "нашего"
  else if morph.gender w = some ("femn") then "нашей"
  else if morph.gender w = some ("neut") then "нашего"
  else "нашей"

/-- The default of `responses.get(rating, ["Спасибо за Вашу оценку!"])`. -/
def fallback_response : String := "Спасибо за Вашу оценку!"

/-- The `responses` dict of `generate_response`, looked up at `rating` with the
fallback default list, exactly as `responses.get(rating, [...])` does. -/
def responses (brand_name : String) (rating : Int) : List String :=
  if rating = 5 then
    [("Здравствуйте!Благодарим вас за позитивный отзыв! Надеемся и дальше видеть вас в числе постоянных покупателей Торговой Марки ") ++ brand_name ++ ("! Добавляйте бренд ") ++ brand_name ++ (" в список любимых, чтобы быть в курсе акций и новинок! C уважением, команда ") ++ brand_name ++ ("."),
     ("Здравствуйте!Спасибо, что выбрали нас и оценили качество нашей продукции. Благодарим за покупку! Добавляйте бренд ") ++ brand_name ++ (" в список любимых, чтобы быть в курсе акций и новинок! C уважением, команда ") ++ brand_name ++ ("."),
     ("Здравствуйте!Благодарим Вас за  отзыв! Мы рады, что вам все понравилось! Желаем приятных покупок. Добавляйте бренд ") ++ brand_name ++ (" в список любимых, чтобы быть в курсе акций и новинок! C уважением, команда ") ++ brand_name ++ ("."),
     ("Здравствуйте!Спасибо за ваш прекрасный отзыв! Мы очень рады, что наш товар Вам понравился и оставил такое приятное впечатление. Желаем приятных покупок! Будем рады видеть Вас в числе наших постоянных покупателей. Добавляйте бренд ") ++ brand_name ++ (" в список любимых, чтобы быть в курсе акций и новинок! C уважением, команда ") ++ brand_name ++ ("."),
     ("Здравствуйте!Благодарим за то, что нашли время, чтобы оценить наш товар и написать отзыв. Будем рады видеть Вас в числе наших постоянных покупателей. Желаем приятных покупок. Добавляйте бренд ") ++ brand_name ++ (" в список любимых, чтобы быть в курсе акций и новинок! C уважением, команда ") ++ brand_name ++ ("."),
     ("Здравствуйте! Спасибо за выбор нашего товара. Нам очень приятно, что Вы по достоинству оценили качество нашей продукции. Благодарим за покупку! Добавляйте бренд ") ++ brand_name ++ (" в список любимых, чтобы быть в курсе акций и новинок! C уважением, команда ") ++ brand_name ++ (".")]
  else if rating = 4 then
    [("Здравствуйте! Благодарим за Ваш отзыв! Ваше мнение действительно важно для нас и помогает в совершенствовании наших услуг. Мы работаем над тем, чтобы каждый Ваш визит был удачным. Добавляйте бренд ") ++ brand_name ++ (" в список любимых, чтобы быть в курсе акций и новинок! С уважением, Команда ") ++ brand_name ++ ("."),
     ("Здравствуйте! Спасибо за Вашу честную обратную связь. Для нас ценно знать, что Вы оценили наш сервис. Мы стремимся не только поддерживать, но и превосходить Ваши ожидания, поэтому будем признательны за любые рекомендации, которые помогут нам улучшиться. Желаем Вам приятных и удачных покупок. Добавляйте бренд ") ++ brand_name ++ (" в список любимых, чтобы быть в курсе акций и новинок! С уважением, команда ") ++ brand_name]
  else if rating = 3 then
    [("Здравствуйте! Благодарим за отзыв. Извините за доставленные неудобства. Ваши замечания — ценный вклад в наше стремление к совершенству, и мы сделаем все возможное, чтобы избежать подобных ситуаций в будущем. Добавляйте бренд ") ++ brand_name ++ (" в список любимых, чтобы быть в курсе акций и новинок! С уважением, Команда") ++ brand_name ++ ("."),
     ("Здравствуйте! Спасибо за ваше мнение. Нам жаль, что не всё прошло гладко. Ваше доверие — это наша главная ценность, и мы уже рассматриваем все возможности для улучшения на основе Ваших замечаний. Мы надеемся, что будущие взаимодействия будут удовлетворять Вас на все 100%. Добавляйте бренд ") ++ brand_name ++ (" в список любимых, чтобы быть в курсе акций и новинок! С уважением, команда ") ++ brand_name]
  else if rating = 2 then
    [("Здравствуйте! Благодарим за отзыв и приносим извинения за неудобства, с которыми Вы столкнулись. Ваша обратная связь позволяет нам улучшать наши услуги, и мы будем рады предоставить Вам лучший опыт в будущем. Добавляйте бренд ") ++ brand_name ++ (" в список любимых, чтобы быть в курсе акций и новинок! С уважением, Команда ") ++ brand_name ++ ("."),
     ("Здравствуйте! Спасибо за ваш отзыв. Мы искренне извиняемся за все неудобства, которые могли возникнуть. Ваше мнение крайне важно для нас, и мы уверены, что с вашей помощью сможем выявить и устранить причины произошедшего. Ваш комфорт и удовлетворённость — наш приоритет. С уважением, команда ") ++ brand_name]
  else if rating = 1 then
    [("Здравствуйте! Спасибо за Ваш отзыв. Нам жаль, что у Вас остались негативные впечатления. Мы внимательно рассмотрим Ваши комментарии, чтобы улучшить качество и предоставить Вам лучший опыт в будущем. Добавляйте бренд ") ++ brand_name ++ (" в список любимых, чтобы быть в курсе акций и новинок! С уважением, Команда.") ++ brand_name ++ ("."),
     ("Здравствуйте! Приносим извинения за доставленные неудобства и благодарим за Ваши замечания. Мы стремимся к высочайшему уровню обслуживания и надеемся, что Вы дадите нам шанс на исправление. Добавляйте бренд ") ++ brand_name ++ (" в список любимых, чтобы быть в курсе акций и новинок! С уважением и наилучшими пожеланиями, команда ") ++ brand_name ++ (".")]
  else [fallback_response]

/-- Embeds `generate_response`.  `choice` stands for the position drawn by
`random.choice` (taken modulo the list length, which is always positive);
`first_word_genitive` and `our_word` are computed but, as in the source, never
interpolated into any template. -/
def generate_response (morph : MorphOracle) (choice : Nat) (rating : Int)
    (brand_name product_name : String) : Except Unit String :=
  match first_word_of product_name with
  | .error e => .error e
  | .ok first_word =>
    let first_word_genitive := (morph.inflectGent first_word).getD first_word
    let our_word := our_word_of morph first_word
    let rs := responses brand_name rating
    let _ := (first_word_genitive, our_word)
    .ok (rs.getD (choice % rs.length) fallback_response)

/-! ### ReviewLedger: the SQLite tables (src/bot.py lines 41-116)

`processed_reviews` is a list of records; the `review_id TEXT PRIMARY KEY`
constraint makes a duplicate `INSERT` raise `sqlite3.IntegrityError`, embedded
as `Except.error ()`. -/

structure Record where
  review_id : String
  sku : String
  product_name : String
  user_name : String
  review_text : String
  rating : Int
  response_text : String
  comment_id : String

/-- `SELECT 1 FROM processed_reviews WHERE review_id = ?` returned a row. -/
def is_review_processed (l : List Record) (review_id : String) : Bool :=
  l.any (fun rec => rec.review_id == review_id)

/-- `INSERT INTO processed_reviews ...`: the primary-key constraint rejects a
duplicate `review_id` instead of overwriting. -/
def save_review_to_db (l : List Record) (r : Record) : Except Unit (List Record) :=
  if l.any (fun rec => rec.review_id == r.review_id) then .error ()
  else .ok (l ++ [r])

/-- A row of the `users` table. -/
structure User where
  user_id : Int
  username : String
  is_active : Bool

/-- `SELECT COUNT(*) FROM users WHERE is_active = 1`. -/
def countActive (st : List User) : Nat := (st.filter (fun u => u.is_active)).length

def MAX_USERS : Nat := 5

/-- Embeds `add_user`: reject once the active count reaches the cap, otherwise
`INSERT OR IGNORE` (a no-op when the id is already present) and report success. -/
def add_user (user_id : Int) (username : String) (st : List User) : Bool × List User :=
  if MAX_USERS ≤ countActive st then (false, st)
  else if st.any (fun u => u.user_id == user_id) then (true, st)
  else (true, st ++ [{ user_id := user_id, username := username, is_active := true }])

/-- `add_user` applied to a whole command sequence, collecting each call's
returned flag together with the final table. -/
def register_all : List (Int × String) → List User → List Bool × List User
  | [], st => ([], st)
  | (uid, un) :: rest, st =>
    let r := add_user uid un st
    let rr := register_all rest r.2
    (r.1 :: rr.1, rr.2)

/-! ### MarketplaceClient (src/bot.py lines 155-205, 257-281)

HTTP traffic is an oracle: a response value records whether the transport
succeeded (`aiohttp.ClientError` is caught by the source), the status code and
the parsed JSON fields the source reads. -/

/-- One element of the `items` array of `/v3/product/info/list`; both fields
are read with `dict.get` defaults, so they are optional. -/
structure Item where
  name : Option String
  brand : Option String

/-- Response oracle for `/v3/product/info/list`:  `ok = false` models a
transport error, `items = none` a body without an `"items"` key. -/
structure ProdResp where
  ok : Bool
  status : Int
  items : Option (List Item)

/-- How `get_product_info_from_card` reads one response: `items[0]` only on a
200 status with a non-empty `items` array, otherwise the empty dict. -/
def product_info_of_response (response : ProdResp) : Option Item :=
  if response.ok then
    if response.status = 200 then
      match response.items with
      | some (item :: _) => some item
      | _ => none
    else none
  else none

/-- Embeds `get_product_info_from_card`.  The first component records whether
a network request was issued; the second is the returned dict (`none` = `{}`). -/
def get_product_info_from_card (sku : Option Int) (net : Int → ProdResp) :
    Bool × Option Item :=
  if !truthyI sku then (false, none)
  else (true, product_info_of_response (net (sku.getD 0)))

/-- Embeds `get_product_name_and_brand_by_sku`: `get` with empty-string
defaults, strip the brand, fall back to "Guten Morgen" when it is blank. -/
def get_product_name_and_brand_by_sku (sku : Option Int) (net : Int → ProdResp) :
    String × String :=
  let product_info := (get_product_info_from_card sku net).2
  let product_name := match product_info with
    | none => ""
    | some item => item.name.getD ("")
  let brand_raw := pyStrip (match product_info with
    | none => ""
    | some item => item.brand.getD (""))
  let brand_name := if brand_raw = "" then "Guten Morgen" else brand_raw
  (product_name, brand_name)

/-- Response oracle for `/v1/review/comment/create`. -/
structure ApiResp where
  ok : Bool
  status : Int
  comment_id : Option String

/-- Embeds `post_comment`: the `comment_id` field (default "") on a 200
response, and "" on a non-200 status or a transport error. -/
def post_comment (response : ApiResp) : String :=
  if response.ok then
    if response.status = 200 then response.comment_id.getD ("")
    else ""
  else ""

/-! ### NotificationSink: `notify_channel` (src/bot.py lines 284-325)

The embedding returns the message string handed to `bot.send_message`
(delivery itself is fire-and-forget in the source). -/

/-- The inner `determine_brand` helper: case-insensitive substring checks on
the product name. -/
def determine_brand (product_name : String) : String :=
  let product_name_lower := if product_name != "" then pyLower product_name else ""
  if containsSub product_name_lower ("diana") then "Diana"
  else if containsSub product_name_lower ("guten morgen") then "Guten Morgen"
  else if containsSub product_name_lower ("gm") then "Guten Morgen"
  else "Unknown"

/-- Embeds `notify_channel`.  The source rebinds `response_text` to a freshly
generated reply before building the message, so the incoming argument is dead.
`choice` is the `random.choice` draw of that inner `generate_response` call. -/
def notify_channel (morph : MorphOracle) (choice : Nat) (sku : Option Int)
    (response_text : String) (rating : Int)
    (product_name user_name review_text : String) : Except Unit String :=
  let user_name := if user_name != "" then user_name else "Аноним"
  let brand0 := determine_brand product_name
  let brand_name := if brand0 = "Unknown" then "Guten Morgen" else brand0
  let skuStr := pyStrOptInt sku
  let product_url :=
    if brand_name = "Diana" then
      ("https://www.ozon.ru/product/polotentse-mahrovoe-diana-1-sht-50h90-visdom-hlopok-100-450-g-m2-") ++ skuStr ++ ("/?at=PjtJn4mrrcpDJKlxi71M2m3Ux8Y9MYc7")
    else if brand_name = "Guten Morgen" then
      ("https://www.ozon.ru/product/polotentse-mahrovoe-guten-morgen-1-sht-50h90-visdom-hlopok-100-450-g-m2-") ++ skuStr ++ ("/?at=PjtJn4mrrcpDJKlxi71M2m3Ux8Y9MYc7")
    else
      ("https://www.ozon.ru/product/unknown-brand-") ++ skuStr ++ ("/?at=PjtJn4mrrcpDJKlxi71M2m3Ux8Y9MYc7")
  match generate_response morph choice rating brand_name product_name with
  | .error e => .error e
  | .ok response_text =>
    .ok (("Бренд: ") ++ brand_name ++ ("\n⭐️") ++ pyStrMul ("⭐️") (rating - 1) ++ ("\n")
      ++ ("Артикул Ozon: ") ++ skuStr ++ (" (<a href=\x27") ++ product_url ++ ("\x27>Ссылка на карточку товара</a>)\nТовар: ")
      ++ product_name ++ ("\n\n💬 ") ++ user_name ++ ("\n") ++ review_text
      ++ ("\n\n✅ Отправлен ответ:\n") ++ response_text)

/-! ### ReviewProcessor: the per-review body of `handle_reviews`
(src/bot.py lines 442-477) -/

/-- A fetched review, fields as read by `review.get(...)` (`none` = key absent). -/
structure Review where
  id : String
  text : Option String
  rating : Option Int
  sku : Option Int
  product_name : Option String
  brand : Option String

/-- `review.get("rating", 0) or 1`. -/
def eff_rating (r : Review) : Int :=
  let v := r.rating.getD 0
  if v = 0 then 1 else v

/-- `review.get("text", "Отзыв отсутствует")`. -/
def eff_text (r : Review) : String := r.text.getD ("Отзыв отсутствует")

/-- The `if not product_name and sku:` guard deciding whether product data is
fetched from the API. -/
def fetches_info (r : Review) : Bool := !truthyS r.product_name && truthyI r.sku

/-- The review's product name after the optional API lookup. -/
def resolved_name (net : Int → ProdResp) (r : Review) : Option String :=
  if fetches_info r then some (get_product_name_and_brand_by_sku r.sku net).1
  else r.product_name

/-- The review's brand after the optional API lookup
(`review.get("brand", "Guten Morgen")` on the other branch). -/
def resolved_brand (net : Int → ProdResp) (r : Review) : String :=
  if fetches_info r then (get_product_name_and_brand_by_sku r.sku net).2
  else r.brand.getD ("Guten Morgen")

/-- Observable state threaded through one review's processing: the
`processed_reviews` table, the channel messages sent, and the comment
submissions posted to the marketplace. -/
structure St where
  ledger : List Record
  notes : List String
  submits : List (String × String)

/-- All the ambient collaborators of one `handle_reviews` iteration. -/
structure Env where
  morph : MorphOracle
  choiceGen : Nat
  choiceNotify : Nat
  net : Int → ProdResp
  submit : String → String → ApiResp

/-- Embeds the body of the `for review in islice(reviews, 5):` loop: dedup
check, product resolution, generation, submission, then notify + record only
on a non-empty `comment_id`.  An uncaught Python exception is `.error ()`. -/
def processReview (env : Env) (st : St) (r : Review) : Except Unit St :=
  if is_review_processed st.ledger r.id then .ok st
  else
    let pn := resolved_name env.net r
    if !truthyS pn then .ok st
    else
      let product_name := pn.getD ("")
      let brand_name := resolved_brand env.net r
      match generate_response env.morph env.choiceGen (eff_rating r) brand_name product_name with
      | .error e => .error e
      | .ok response_text =>
        let comment_id := post_comment (env.submit r.id response_text)
        let st1 : St := { st with submits := st.submits ++ [(r.id, response_text)] }
        if comment_id != "" then
          match notify_channel env.morph env.choiceNotify r.sku response_text (eff_rating r)
              product_name ("Аноним") (eff_text r) with
          | .error e => .error e
          | .ok msg =>
            match save_review_to_db st1.ledger
                { review_id := r.id, sku := pyStrOptInt r.sku, product_name := product_name,
                  user_name := "Аноним", review_text := eff_text r, rating := eff_rating r,
                  response_text := response_text, comment_id := comment_id } with
            | .error e => .error e
            | .ok l => .ok { st1 with notes := st1.notes ++ [msg], ledger := l }
        else .ok st1

/-! ### Predicates and concrete fixtures used by the theorems -/

/-- Any non-success shape of a `/v3/product/info/list` response: transport
error, non-200 status, missing `items` key, or an empty `items` array. -/
def prodFailure (resp : ProdResp) : Prop :=
  resp.ok = false ∨ resp.status ≠ 200 ∨ resp.items = none ∨ resp.items = some []

/-- Product names on which `product_name.split()[0]` does not raise: the empty
string (the `else "продукт"` branch) or a name with at least one word. -/
def wfName (s : String) : Prop := s = "" ∨ pySplitWs s ≠ []

def recA : Record :=
  { review_id := "r1", sku := "123", product_name := "p", user_name := "u",
    review_text := "t", rating := 5, response_text := "resp", comment_id := "c1" }

def recB : Record := { recA with response_text := "other" }

def netC : Int → ProdResp :=
  fun _ => { ok := true, status := 200, items := some [{ name := some ("X"), brand := some ("B") }] }

def env1 : Env :=
  { morph := trivMorph, choiceGen := 0, choiceNotify := 0,
    net := fun _ => { ok := false, status := 0, items := none },
    submit := fun _ _ => { ok := true, status := 200, comment_id := some ("c1") } }

def st0 : St := { ledger := [], notes := [], submits := [] }

def rev1 : Review :=
  { id := "r1", text := some ("great"), rating := some 5, sku := some 123,
    product_name := some ("Полотенце"), brand := some ("Guten Morgen") }

def env2 : Env :=
  { morph := trivMorph, choiceGen := 0, choiceNotify := 0,
    net := fun _ => { ok := false, status := 0, items := none },
    submit := fun _ _ => { ok := true, status := 500, comment_id := some ("cX") } }

def st2 : St := { ledger := [], notes := [], submits := [] }

def rev2 : Review :=
  { id := "r9", text := some ("bad"), rating := some 1, sku := some 5,
    product_name := some ("Полотенце"), brand := none }

def env4 : Env :=
  { morph := trivMorph, choiceGen := 0, choiceNotify := 0,
    net := fun _ => { ok := false, status := 0, items := none },
    submit := fun _ _ => { ok := false, status := 0, comment_id := none } }

def st4 : St := { ledger := [], notes := [], submits := [] }

def rev4 : Review :=
  { id := "r2", text := none, rating := none, sku := none,
    product_name := none, brand := none }

/-! ### Helper lemmas -/

theorem strData_append (a b : String) : (a ++ b).data = a.data ++ b.data := rfl

theorem isPrefixOf_append_self (n b : List Char) : n.isPrefixOf (n ++ b) = true := by
  induction n with
  | nil => simp [List.isPrefixOf]
  | cons c cs ih => simp [List.isPrefixOf, ih]

theorem infixAux_here (n rest : List Char) : infixAux n (n ++ rest) = true := by
  cases n with
  | nil =>
    cases rest with
    | nil => rfl
    | cons c t => simp [infixAux, List.isPrefixOf]
  | cons c cs => simp [infixAux, isPrefixOf_append_self]

theorem infixAux_skip (n : List Char) (c : Char) (t : List Char)
    (h : infixAux n t = true) : infixAux n (c :: t) = true := by
  simp [infixAux, h]

theorem infixAux_mid (n a b : List Char) : infixAux n (a ++ (n ++ b)) = true := by
  induction a with
  | nil => simpa using infixAux_here n b
  | cons c a' ih => simpa using infixAux_skip n c _ ih

theorem infixAux_end (n a : List Char) : infixAux n (a ++ n) = true := by
  have h := infixAux_mid n a []
  simpa using h

theorem str_append_ne_empty_left (a b : String) (h : a ≠ "") : a ++ b ≠ "" := by
  intro hab
  apply h
  have hd : a.data ++ b.data = ([] : List Char) := by
    have := congrArg String.data hab
    simpa [strData_append] using this
  have ha : a.data = [] := (List.append_eq_nil.mp hd).1
  cases a
  simp only at ha
  simp [ha]

/-- `List.getD` at an in-range index is a member of the list. -/
theorem getD_mem_of_lt {α : Type} (l : List α) (i : Nat) (d : α) (h : i < l.length) :
    l.getD i d ∈ l := by
  induction l generalizing i with
  | nil => simp at h
  | cons x xs ih =>
    cases i with
    | zero => simp [List.getD]
    | succ j =>
      have hj : j < xs.length := by simpa using h
      simpa [List.getD] using Or.inr (by simpa [List.getD] using ih j hj)

theorem pyStrip_empty : pyStrip ("") = "" := rfl

theorem product_info_none_of_failure (resp : ProdResp) (h : prodFailure resp) :
    product_info_of_response resp = none := by
  obtain ⟨ok, status, items⟩ := resp
  cases ok <;> rcases h with h | h | h | h <;>
    simp_all [product_info_of_response] <;> rcases items with _ | ⟨_ | ⟨i, l⟩⟩ <;> simp_all

/-! ## Claim theorems -/

theorem first_word_ok (pn : String) (h : wfName pn) : ∃ w, first_word_of pn = .ok w := by
  by_cases he : pn = ""
  · subst he
    exact ⟨_, rfl⟩
  · rcases h with h | h
    · exact absurd h he
    · cases hs : pySplitWs pn with
      | nil => exact absurd hs h
      | cons w ws =>
        refine ⟨pyLower w, ?_⟩
        simp [first_word_of, he, hs]

set_option maxRecDepth 100000 in
theorem responses_mem (brand : String) (rating : Int) (h1 : 1 ≤ rating) (h5 : rating ≤ 5) :
    ∀ t ∈ responses brand rating, t ≠ "" ∧ containsSub t brand = true := by
  intro t ht
  interval_cases rating <;> simp [responses] at ht <;>
    rcases ht with rfl | rfl | rfl | rfl | rfl | rfl <;> refine ⟨?_, ?_⟩ <;>
    first
      | ((repeat' apply str_append_ne_empty_left) <;> decide)
      | (simp only [containsSub, strData_append, List.append_assoc]
         first
           | exact infixAux_mid _ _ _
           | exact infixAux_end _ _)

set_option maxRecDepth 100000 in
/-- C3 (amended): for every rating in 1-5, every brand, and every product-name
string that is empty or contains a non-whitespace character,
`ResponseTemplateEngine.generate` returns, without raising, a non-empty string
containing the brand name.  (As stated over every product-name string the
claim fails: a whitespace-only name raises, see the counterexample.) -/
theorem generate_nonempty_contains_brand (morph : MorphOracle) (choice : Nat) (rating : Int)
    (brand product_name : String) (h1 : 1 ≤ rating) (h5 : rating ≤ 5)
    (hw : wfName product_name) :
    ∃ out, generate_response morph choice rating brand product_name = .ok out
      ∧ out ≠ "" ∧ containsSub out brand = true := by
  obtain ⟨w, hw'⟩ := first_word_ok product_name hw
  have hlen : 0 < (responses brand rating).length := by
    interval_cases rating <;> simp [responses]
  have hmem : (responses brand rating).getD (choice % (responses brand rating).length)
      fallback_response ∈ responses brand rating :=
    getD_mem_of_lt _ _ _ (Nat.mod_lt _ hlen)
  obtain ⟨hne, hcont⟩ := responses_mem brand rating h1 h5 _ hmem
  refine ⟨_, ?_, hne, hcont⟩
  simp [generate_response, hw']

/-- C3 counterexample: on the whitespace-only product name " " (rating 5,
canonical brand) the source raises `IndexError` from `product_name.split()[0]`
instead of returning a reply string. -/
theorem generate_raises_on_blank_name :
    generate_response trivMorph 0 5 ("Guten Morgen") (" ") = .error () := rfl

theorem generate_nonempty_contains_brand_witness :
    ∃ out, generate_response trivMorph 0 5 ("Guten Morgen") ("Полотенце") = .ok out
      ∧ out ≠ "" ∧ containsSub out ("Guten Morgen") = true :=
  generate_nonempty_contains_brand trivMorph 0 5 ("Guten Morgen") ("Полотенце")
    (by decide) (by decide) (Or.inr (by decide))

/-- C9 (amended): for every rating outside 1-5, any brand, and any product
name that is empty or contains a non-whitespace character, `generate_response`
returns the single generic fallback acknowledgment string.  (As stated over
any product name the claim fails: a whitespace-only name raises, see the
counterexample.) -/
theorem generate_fallback_outside_range (morph : MorphOracle) (choice : Nat) (rating : Int)
    (brand product_name : String) (hr : rating < 1 ∨ 5 < rating) (hw : wfName product_name) :
    generate_response morph choice rating brand product_name = .ok fallback_response := by
  obtain ⟨w, hw'⟩ := first_word_ok product_name hw
  have h5 : rating ≠ 5 := by omega
  have h4 : rating ≠ 4 := by omega
  have h3 : rating ≠ 3 := by omega
  have h2 : rating ≠ 2 := by omega
  have h1 : rating ≠ 1 := by omega
  simp [generate_response, hw', responses, h5, h4, h3, h2, h1]

/-- C9 counterexample: at rating 0 (outside 1-5) with the whitespace-only
product name " " the source raises `IndexError` instead of returning the
generic fallback string. -/
theorem generate_raises_outside_range_on_blank_name :
    generate_response trivMorph 0 0 ("Guten Morgen") (" ") = .error () := rfl

theorem generate_fallback_outside_range_witness :
    generate_response trivMorph 0 7 ("Guten Morgen") ("") = .ok fallback_response :=
  generate_fallback_outside_range trivMorph 0 7 ("Guten Morgen") ("")
    (Or.inr (by decide)) (Or.inl rfl)

/-- C5: `ReviewLedger.record` is insert-only: inserting a record whose review
identifier is already present fails with a constraint violation and no write,
while a fresh identifier is appended. -/
theorem record_duplicate_fails (l : List Record) (r : Record) :
    (is_review_processed l r.review_id = true → save_review_to_db l r = Except.error ())
    ∧ (is_review_processed l r.review_id = false → save_review_to_db l r = Except.ok (l ++ [r])) := by
  constructor
  · intro h
    have h' : l.any (fun rec => rec.review_id == r.review_id) = true := h
    simp [save_review_to_db, h']
  · intro h
    have h' : l.any (fun rec => rec.review_id == r.review_id) = false := h
    simp [save_review_to_db, h']

theorem record_duplicate_fails_witness : save_review_to_db [recA] recB = Except.error () :=
  (record_duplicate_fails [recA] recB).1 (by decide)

theorem countActive_add_user_le (uid : Int) (un : String) (st : List User)
    (h : countActive st ≤ MAX_USERS) : countActive (add_user uid un st).2 ≤ MAX_USERS := by
  unfold add_user
  split_ifs with h1 h2
  · exact h
  · exact h
  · have hlt : countActive st < MAX_USERS := Nat.lt_of_not_le h1
    have hstep : countActive (st ++ [{ user_id := uid, username := un, is_active := true }])
        = countActive st + 1 := by
      simp [countActive, List.filter_append]
    simp only [hstep]
    omega

theorem register_all_active_le (calls : List (Int × String)) :
    ∀ st : List User, countActive st ≤ MAX_USERS →
      countActive (register_all calls st).2 ≤ MAX_USERS := by
  induction calls with
  | nil => intro st h; exact h
  | cons p rest ih =>
    intro st h
    obtain ⟨uid, un⟩ := p
    simpa [register_all] using ih _ (countActive_add_user_le uid un st h)

/-- C6: `registerRecipient` accepts while the active count is below the cap,
rejects with no write at the cap, preserves the cap bound, never exceeds the
cap from an empty store under any call sequence; concretely, six distinct
registrations from empty yield five acceptances, then one rejection, and an
active count of 5. -/
theorem add_user_cap_bound (uid : Int) (un : String) (st : List User) :
    (countActive st < MAX_USERS → (add_user uid un st).1 = true)
    ∧ (MAX_USERS ≤ countActive st → add_user uid un st = (false, st))
    ∧ (countActive st ≤ MAX_USERS → countActive (add_user uid un st).2 ≤ MAX_USERS)
    ∧ (∀ calls : List (Int × String), countActive (register_all calls []).2 ≤ MAX_USERS)
    ∧ ((register_all [(1, ("a")), (2, ("b")), (3, ("c")), (4, ("d")), (5, ("e")), (6, ("f"))] []).1
          = [true, true, true, true, true, false]
        ∧ countActive (register_all [(1, ("a")), (2, ("b")), (3, ("c")), (4, ("d")), (5, ("e")), (6, ("f"))] []).2
          = 5) := by
  refine ⟨fun h => ?_, fun h => ?_, countActive_add_user_le uid un st,
    fun calls => register_all_active_le calls [] (by decide), by decide, by decide⟩
  · unfold add_user
    split_ifs <;> first | rfl | omega
  · unfold add_user
    rw [if_pos h]

theorem add_user_cap_bound_witness : (add_user 7 ("x") []).1 = true :=
  (add_user_cap_bound 7 ("x") []).1 (by decide)

theorem lookup_by_prefix_canonical (b : String) :
    lookup_by_prefix brand_mapping b = "Diana Store"
    ∨ lookup_by_prefix brand_mapping b = "Guten Morgen" := by
  simp only [brand_mapping, lookup_by_prefix]
  split_ifs <;> simp

/-- C7: `BrandResolver.resolve` lowercases and strips, cuts vendor suffixes at
the `|` (else `/`) delimiter, prefix-matches the fixed storefront mapping and
falls back to the default brand; in particular on the two cited inputs, on the
empty string, case-insensitively, and with the `/` delimiter; every output is
one of the two canonical brands. -/
theorem get_brand_name_resolution :
    get_brand_name ("Diana Store | extra text") = "Diana Store"
    ∧ get_brand_name ("unknown vendor") = "Guten Morgen"
    ∧ get_brand_name ("") = "Guten Morgen"
    ∧ get_brand_name ("DIANA STORE | EXTRA TEXT") = get_brand_name ("diana store | extra text")
    ∧ get_brand_name ("Guten Morgen / vendor suffix") = "Guten Morgen"
    ∧ ∀ s : String, get_brand_name s = "Diana Store" ∨ get_brand_name s = "Guten Morgen" :=
  ⟨by decide, by decide, by decide, by decide, by decide,
   fun s => lookup_by_prefix_canonical _⟩

/-- C8: product lookup with a falsy SKU issues no network call and yields the
empty name with the fallback brand; any failed lookup yields the same empty
result. -/
theorem fetch_product_empty_on_falsy_or_failure (net : Int → ProdResp) (sku : Option Int) :
    (truthyI sku = false →
      (get_product_info_from_card sku net).1 = false
      ∧ get_product_name_and_brand_by_sku sku net = ("", "Guten Morgen"))
    ∧ (prodFailure (net (sku.getD 0)) →
      get_product_name_and_brand_by_sku sku net = ("", "Guten Morgen")) := by
  constructor
  · intro h
    constructor
    · simp [get_product_info_from_card, h]
    · simp [get_product_name_and_brand_by_sku, get_product_info_from_card, h, pyStrip_empty]
  · intro hfail
    have hinfo : (get_product_info_from_card sku net).2 = none := by
      by_cases h : truthyI sku
      · simp [get_product_info_from_card, h, product_info_none_of_failure _ hfail]
      · simp [get_product_info_from_card, Bool.eq_false_iff.mpr h]
    simp [get_product_name_and_brand_by_sku, hinfo, pyStrip_empty]

theorem fetch_product_empty_on_falsy_or_failure_witness :
    (get_product_info_from_card none netC).1 = false
    ∧ get_product_name_and_brand_by_sku none netC = ("", "Guten Morgen") :=
  (fetch_product_empty_on_falsy_or_failure netC none).1 (by decide)

theorem generate_ok (morph : MorphOracle) (choice : Nat) (rating : Int)
    (brand product_name : String) (hw : wfName product_name) :
    ∃ out, generate_response morph choice rating brand product_name = .ok out := by
  obtain ⟨w, hw'⟩ := first_word_ok product_name hw
  refine ⟨(responses brand rating).getD (choice % (responses brand rating).length)
    fallback_response, ?_⟩
  simp [generate_response, hw']

theorem notify_ok (morph : MorphOracle) (choice : Nat) (sku : Option Int) (rt : String)
    (rating : Int) (pn un rvt : String) (hw : wfName pn) :
    ∃ msg, notify_channel morph choice sku rt rating pn un rvt = .ok msg := by
  obtain ⟨out, hout⟩ := generate_ok morph choice rating
    (if determine_brand pn = "Unknown" then "Guten Morgen" else determine_brand pn) pn hw
  simp only [notify_channel, hout]
  exact ⟨_, rfl⟩

theorem filter_eq_nil_of_any_eq_false {α : Type} (p : α → Bool) (l : List α)
    (h : l.any p = false) : l.filter p = [] := by
  induction l with
  | nil => rfl
  | cons x xs ih =>
    simp only [List.any_cons, Bool.or_eq_false_iff] at h
    simp [List.filter_cons, h.1, ih h.2]

/-- C1: processing an unprocessed review whose product identity resolves and
whose submission succeeds appends exactly one ledger record and one reply
submission; re-running the pipeline on the same review with the resulting
ledger detects `isProcessed` and returns the state unchanged. -/
theorem process_review_idempotent (env : Env) (st : St) (r : Review)
    (hproc : is_review_processed st.ledger r.id = false)
    (hpn : truthyS (resolved_name env.net r) = true)
    (hw : wfName ((resolved_name env.net r).getD ("")))
    (hsub : ∀ t, post_comment (env.submit r.id t) ≠ "") :
    ∃ st1, processReview env st r = .ok st1
      ∧ (st1.ledger.filter (fun rec => rec.review_id == r.id)).length = 1
      ∧ st1.submits.length = st.submits.length + 1
      ∧ is_review_processed st1.ledger r.id = true
      ∧ processReview env st1 r = .ok st1 := by
  obtain ⟨out, hout⟩ := generate_ok env.morph env.choiceGen (eff_rating r)
    (resolved_brand env.net r) ((resolved_name env.net r).getD ("")) hw
  obtain ⟨msg, hmsg⟩ := notify_ok env.morph env.choiceNotify r.sku out (eff_rating r)
    ((resolved_name env.net r).getD ("")) ("Аноним") (eff_text r) hw
  have hany : st.ledger.any (fun rec => rec.review_id == r.id) = false := hproc
  have hfilter0 : st.ledger.filter (fun rec => rec.review_id == r.id) = [] :=
    filter_eq_nil_of_any_eq_false _ _ hany
  have hsubne := hsub out
  have hrun : processReview env st r = .ok
      { ledger := st.ledger ++
          [{ review_id := r.id, sku := pyStrOptInt r.sku,
             product_name := (resolved_name env.net r).getD (""),
             user_name := "Аноним", review_text := eff_text r, rating := eff_rating r,
             response_text := out, comment_id := post_comment (env.submit r.id out) }],
        notes := st.notes ++ [msg],
        submits := st.submits ++ [(r.id, out)] } := by
    simp [processReview, hproc, hpn, hout, hmsg, hsubne, save_review_to_db, hany]
  refine ⟨_, hrun, ?_, ?_, ?_, ?_⟩
  · simp [List.filter_append, hfilter0]
  · simp
  · simp [is_review_processed, List.any_append, hany]
  · simp [processReview, is_review_processed, List.any_append, hany]

theorem process_review_idempotent_witness :
    ∃ st1, processReview env1 st0 rev1 = .ok st1
      ∧ (st1.ledger.filter (fun rec => rec.review_id == rev1.id)).length = 1
      ∧ st1.submits.length = st0.submits.length + 1
      ∧ is_review_processed st1.ledger rev1.id = true
      ∧ processReview env1 st1 rev1 = .ok st1 :=
  process_review_idempotent env1 st0 rev1 (by decide) (by decide)
    (Or.inr (by decide)) (fun t => by simp [env1, post_comment])

/-- C2: when `submitReply` yields the empty string the pipeline performs no
notification and no ledger write for that review and moves on (returns
normally); the ledger is unchanged. -/
theorem failed_submission_writes_nothing (env : Env) (st : St) (r : Review)
    (hw : wfName ((resolved_name env.net r).getD ("")))
    (hsub : ∀ t, post_comment (env.submit r.id t) = "") :
    ∃ st', processReview env st r = .ok st'
      ∧ st'.ledger = st.ledger ∧ st'.notes = st.notes := by
  cases hproc : is_review_processed st.ledger r.id with
  | true => exact ⟨st, by simp [processReview, hproc], rfl, rfl⟩
  | false =>
    cases hpn : truthyS (resolved_name env.net r) with
    | false => exact ⟨st, by simp [processReview, hproc, hpn], rfl, rfl⟩
    | true =>
      obtain ⟨out, hout⟩ := generate_ok env.morph env.choiceGen (eff_rating r)
        (resolved_brand env.net r) ((resolved_name env.net r).getD ("")) hw
      exact ⟨{ st with submits := st.submits ++ [(r.id, out)] },
        by simp [processReview, hproc, hpn, hout, hsub out], rfl, rfl⟩

theorem failed_submission_writes_nothing_witness :
    ∃ st', processReview env2 st2 rev2 = .ok st'
      ∧ st'.ledger = st2.ledger ∧ st'.notes = st2.notes :=
  failed_submission_writes_nothing env2 st2 rev2 (Or.inr (by decide))
    (fun t => by simp [env2, post_comment])

/-- C4: a fetched review with no product name and no SKU is skipped: the
pipeline returns with the state untouched (no notification, no ledger write,
no submission). -/
theorem review_without_identity_skipped (env : Env) (st : St) (r : Review)
    (hpn : truthyS r.product_name = false) (hsku : r.sku = none) :
    processReview env st r = .ok st := by
  cases hproc : is_review_processed st.ledger r.id with
  | true => simp [processReview, hproc]
  | false =>
    have hf : fetches_info r = false := by simp [fetches_info, hsku, truthyI]
    have hres : resolved_name env.net r = r.product_name := by simp [resolved_name, hf]
    simp [processReview, hproc, hres, hpn]

theorem review_without_identity_skipped_witness :
    processReview env4 st4 rev4 = .ok st4 :=
  review_without_identity_skipped env4 st4 rev4 (by decide) rfl

set_option maxRecDepth 40000 in
/-- C10: the message built by `notify_channel` does not depend on its
`response_text` argument (the shown reply is regenerated from the rating and a
brand re-derived from the product name alone), so the notified text can differ
from the reply actually submitted: concretely, the built message does not
contain the submitted text at all. -/
theorem notify_channel_ignores_response_text :
    (∀ (morph : MorphOracle) (choice : Nat) (sku : Option Int) (rt1 rt2 : String) (rating : Int)
        (product_name user_name review_text : String),
      notify_channel morph choice sku rt1 rating product_name user_name review_text
        = notify_channel morph choice sku rt2 rating product_name user_name review_text)
    ∧ (∃ msg, notify_channel trivMorph 0 (some 123) ("SUBMITTED") 5 ("Полотенце") ("") ("great")
          = Except.ok msg
        ∧ containsSub msg ("SUBMITTED") = false) :=
  ⟨fun _ _ _ _ _ _ _ _ _ => rfl, ⟨_, rfl, by decide⟩⟩

end OzonBot
